import Mathlib

/-!
Verification development for the native core of a scrcpy-style screen
mirroring client (ADB session multiplexer, RSA auth padding, scrcpy v2
stream framer, SPSC ring buffer).  Each definition is a shallow embedding
of the corresponding C++ function; machine integers are modelled as `Nat`
(with explicit `% 2^w` where the code's unsigned arithmetic can wrap, and
a two's-complement reinterpretation where the code uses signed types), and
bytes are `Nat` values produced by `% 256`.
-/

namespace AdbProtocol

/-- Header size constant `AdbProtocol::ADB_HEADER_LENGTH` (AdbProtocol.h). -/
def ADB_HEADER_LENGTH : Nat := 24

/-- Command tag `AdbProtocol::CMD_WRTE` (AdbProtocol.h). -/
def CMD_WRTE : Nat := 0x45545257

/-- Command tag `AdbProtocol::CMD_OKAY` (AdbProtocol.h). -/
def CMD_OKAY : Nat := 0x59414b4f

/-- Command tag `AdbProtocol::CMD_CLSE` (AdbProtocol.h). -/
def CMD_CLSE : Nat := 0x45534c43

/-- Command tag `AdbProtocol::CMD_CNXN` (AdbProtocol.h). -/
def CMD_CNXN : Nat := 0x4e584e43

/-- Local maximum-payload advertisement `AdbProtocol::CONNECT_MAXDATA = 15 * 1024`
(AdbProtocol.h:43). -/
def CONNECT_MAXDATA : Nat := 15 * 1024

/-- Little-endian store, the `writeU32LE` lambda of `AdbProtocol::generateMessage`
(AdbProtocol.cpp:109-114): four bytes of `val`.
Each `static_cast<uint8_t>((val >> 8k) & 0xFF)` is `val / 256^k % 256`. -/
def writeU32LE (val : Nat) : List Nat :=
  [val % 256, val / 256 % 256, val / 256 ^ 2 % 256, val / 256 ^ 3 % 256]

/-- Little-endian load, the `readU32LE` lambda of `AdbMessage::parse`
(AdbProtocol.cpp:28-33): recompose four bytes.  The C++ `|` of the four
disjoint-range shifted bytes equals their sum. -/
def readU32LE (b0 b1 b2 b3 : Nat) : Nat :=
  b0 + b1 * 256 + b2 * 256 ^ 2 + b3 * 256 ^ 3

/-- Checksum `AdbProtocol::payloadChecksum` (AdbProtocol.cpp:138-144): running
`uint32_t` sum of the payload bytes. -/
def payloadChecksum (payload : List Nat) : Nat :=
  payload.foldl (fun c b => (c + b) % 2 ^ 32) 0

/-- Frame encoder `AdbProtocol::generateMessage` (AdbProtocol.cpp:104-136):
24-byte header `cmd|arg0|arg1|len|checksum|magic`, all little-endian, followed
by the payload bytes.  `magic = ~cmd` on `uint32_t` is `2^32 - 1 - cmd % 2^32`;
for an empty payload the length and checksum fields are written as zero. -/
def generateMessage (cmd arg0 arg1 : Nat) (payload : List Nat) : List Nat :=
  writeU32LE cmd ++ writeU32LE arg0 ++ writeU32LE arg1 ++
  (if payload.length = 0 then writeU32LE 0 ++ writeU32LE 0
   else writeU32LE (payload.length % 2 ^ 32) ++ writeU32LE (payloadChecksum payload)) ++
  writeU32LE (2 ^ 32 - 1 - cmd % 2 ^ 32) ++
  payload

/-- OKAY encoder `AdbProtocol::generateOkay` (AdbProtocol.cpp:83-86). -/
def generateOkay (localId remoteId : Nat) : List Nat :=
  generateMessage CMD_OKAY localId remoteId []

/-- CLSE encoder `AdbProtocol::generateClose` (AdbProtocol.cpp:78-81). -/
def generateClose (localId remoteId : Nat) : List Nat :=
  generateMessage CMD_CLSE localId remoteId []

/-- WRTE encoder `AdbProtocol::generateWrite` (AdbProtocol.cpp:72-76). -/
def generateWrite (localId remoteId : Nat) (payload : List Nat) : List Nat :=
  generateMessage CMD_WRTE localId remoteId payload

/-- Frame decoder `AdbMessage::parse` (AdbProtocol.cpp:24-50) on a byte list:
read the 24-byte header, take `command@0`, `arg0@4`, `arg1@8`,
`payload_length@12` (little-endian; `checksum@16` and `magic@20` are not
verified), then read `payload_length` payload bytes.  `none` models a failing
`readExact` (not enough bytes). -/
def parse (bs : List Nat) : Option (Nat × Nat × Nat × List Nat) :=
  if bs.length < 24 then none
  else
    let r : Nat → Nat := fun off =>
      readU32LE (bs.getD off 0) (bs.getD (off + 1) 0) (bs.getD (off + 2) 0) (bs.getD (off + 3) 0)
    let payloadLength := r 12
    if (bs.drop 24).length < payloadLength then none
    else some (r 0, r 4, r 8, (bs.drop 24).take payloadLength)

end AdbProtocol

namespace AdbRing

/-- State of the SPSC `RingBuffer` of adb/RingBuffer.h: the fixed capacity and
the two monotonic 64-bit producer/consumer counters `head_` and `tail_`.
The counters are modelled as `Nat`; the `uint64_t` wraparound is unreachable
for monotonic byte counters within any feasible execution. -/
structure RingBuffer where
  capacity : Nat
  head : Nat
  tail : Nat
deriving DecidableEq

/-- Doubling loop of the `RingBuffer` constructor (`cap = 1; while (cap <
capacity) cap <<= 1;`, RingBuffer.h:26-27), unrolled with explicit fuel.
`target` steps of fuel always suffice because the capacity doubles from 1. -/
def growPow2 (target : Nat) : Nat → Nat → Nat
  | 0, cap => cap
  | fuel + 1, cap => if cap < target then growPow2 target fuel (cap * 2) else cap

/-- Constructor `RingBuffer::RingBuffer(capacity)` (RingBuffer.h:23-31): the
request is clamped up to 4096 and rounded up to the next power of two; both
counters start at zero. -/
def mkRingBuffer (req : Nat) : RingBuffer :=
  { capacity := growPow2 (max 4096 req) (max 4096 req) 1, head := 0, tail := 0 }

/-- Occupancy `RingBuffer::size` (RingBuffer.h:167-172): `head_ - tail_`
(on `uint64_t`; equal to the `Nat` difference in every reachable state, where
`tail_ ≤ head_`). -/
def RingBuffer.size (b : RingBuffer) : Nat := b.head - b.tail

/-- Result of `getWritePtr` / `getReadPtr`: the slot index into the backing
array standing for the returned pointer, and the contiguous length. -/
structure Region where
  idx : Nat
  len : Nat
deriving DecidableEq

/-- Producer query `RingBuffer::getWritePtr` (RingBuffer.h:34-46): when full
(`size >= capacity_`) return the null region; otherwise the contiguous free
region starting at slot `head_ & mask_`, of length
`min(capacity_ - size, capacity_ - writeIdx)`. -/
def RingBuffer.getWritePtr (b : RingBuffer) : Region :=
  let size := b.head - b.tail
  if b.capacity ≤ size then ⟨0, 0⟩
  else
    let writeIdx := b.head &&& (b.capacity - 1)
    ⟨writeIdx, min (b.capacity - size) (b.capacity - writeIdx)⟩

/-- Producer commit `RingBuffer::commitWrite` (RingBuffer.h:49-66): advance
`head_` by the number of bytes written (the waiter wake-up logic touches no
index state). -/
def RingBuffer.commitWrite (b : RingBuffer) (written : Nat) : RingBuffer :=
  { b with head := b.head + written }

/-- Consumer query `RingBuffer::getReadPtr` (RingBuffer.h:69-80): when empty
return the null region; otherwise the contiguous readable region starting at
slot `tail_ & mask_`, of length `min(size, capacity_ - readIdx)`. -/
def RingBuffer.getReadPtr (b : RingBuffer) : Region :=
  let size := b.head - b.tail
  if size = 0 then ⟨0, 0⟩
  else
    let readIdx := b.tail &&& (b.capacity - 1)
    ⟨readIdx, min size (b.capacity - readIdx)⟩

/-- Consumer commit `RingBuffer::consumeRead` (RingBuffer.h:83-87): advance
`tail_` by the number of bytes consumed. -/
def RingBuffer.consumeRead (b : RingBuffer) (consumed : Nat) : RingBuffer :=
  { b with tail := b.tail + consumed }

/-- One API call of the ring buffer, for interleaved producer/consumer
sequences considered as a sequential program. -/
inductive RBOp where
  | getWritePtr
  | getReadPtr
  | commitWrite (n : Nat)
  | consumeRead (n : Nat)

/-- Effect of one API call on the index state.  `getWritePtr` and
`getReadPtr` perform only atomic loads (RingBuffer.h:34-46, 69-80), so they
leave `head_` and `tail_` unchanged. -/
def RBOp.step : RBOp → RingBuffer → RingBuffer
  | .getWritePtr, b => b
  | .getReadPtr, b => b
  | .commitWrite n, b => b.commitWrite n
  | .consumeRead n, b => b.consumeRead n

/-- API contract of the C++ callers (Adb.cpp:202-228, RingBuffer.h:152-165):
a producer commits at most the length returned by `getWritePtr`, and a
consumer consumes at most the length returned by `getReadPtr`. -/
def RBOp.Valid (b : RingBuffer) : RBOp → Prop
  | .getWritePtr => True
  | .getReadPtr => True
  | .commitWrite n => n ≤ b.getWritePtr.len
  | .consumeRead n => n ≤ b.getReadPtr.len

/-- States reachable from a freshly constructed ring buffer by any
interleaved sequence of contract-respecting API calls. -/
inductive Reach (req : Nat) : RingBuffer → Prop
  | init : Reach req (mkRingBuffer req)
  | step {b : RingBuffer} (op : RBOp) : Reach req b → RBOp.Valid b op → Reach req (op.step b)

end AdbRing

namespace Adb

/-- Per-stream state `AdbStream` (Adb.h:30-42) restricted to the fields the
claims depend on: the ids, the terminal flag `closed`, the closed flag of the
16 MiB receive `RingBuffer`, and that buffer's byte content. -/
structure AdbStream where
  localId : Nat
  remoteId : Nat
  closed : Bool
  bufClosed : Bool
  buf : List Nat
deriving DecidableEq

/-- Capacity of a stream's receive ring buffer, `RingBuffer readBuffer{16 * 1024
* 1024}` (Adb.h:39). -/
def streamBufCapacity : Nat := 16 * 1024 * 1024

/-- Session state: the stream registry `connectionStreams_` (Adb.h:142) as an
association list keyed by local id.  Keys are unique in every reachable
session, since `handleInLoop` creates a stream only when the lookup fails. -/
structure Session where
  connectionStreams : List (Nat × AdbStream)
deriving DecidableEq

/-- In-place update of the registry entry with the given key, modelling a
mutation through the `AdbStream*` held in the map. -/
def updateStream (m : List (Nat × AdbStream)) (k : Nat) (s : AdbStream) :
    List (Nat × AdbStream) :=
  m.map fun p => if p.1 = k then (k, s) else p

/-- One iteration of the receive loop `Adb::handleInLoop` (Adb.cpp:157-306) on
a fully received message, as a sequential program.  Returns the new session
state and the frames handed to `writeToChannel` (the sender-side enqueue).
Steps: look up the stream keyed by `arg1`, creating one via `createNewStream`
(Adb.cpp:798-808) when absent; for a WRTE with a non-empty payload, read the
payload into the stream's ring buffer — dropping whatever exceeds the free
space (Adb.cpp:206-228) — and enqueue one OKAY built by
`AdbProtocol::generateOkay(arg1, arg0)` (Adb.cpp:230-232); every other
message reads its payload to a scratch buffer and enqueues nothing, with CLSE
marking the stream closed and closing its ring buffer (Adb.cpp:277-284). -/
def handleMessage (st : Session) (cmd arg0 arg1 : Nat) (payload : List Nat) :
    Session × List (List Nat) :=
  let found := st.connectionStreams.lookup arg1
  let streams :=
    match found with
    | some _ => st.connectionStreams
    | none =>
        (arg1, { localId := arg1, remoteId := arg0, closed := false,
                 bufClosed := false, buf := [] }) :: st.connectionStreams
  let s :=
    match found with
    | some s => s
    | none => { localId := arg1, remoteId := arg0, closed := false,
                bufClosed := false, buf := [] }
  if cmd = AdbProtocol.CMD_WRTE ∧ 0 < payload.length then
    let s' := { s with buf := s.buf ++ payload.take (streamBufCapacity - s.buf.length) }
    (⟨updateStream streams arg1 s'⟩, [AdbProtocol.generateOkay arg1 arg0])
  else if cmd = AdbProtocol.CMD_CLSE then
    (⟨updateStream streams arg1 { s with closed := true, bufClosed := true }⟩, [])
  else
    (⟨streams⟩, [])

/-- Error kinds surfaced by the stream API of Adb.cpp, distinguished by the
`std::runtime_error` message: `"Stream not found"` (Adb.cpp:481),
`"Stream closed"` (Adb.cpp:503), `"Stream read timeout"` (Adb.cpp:519-523). -/
inductive ReadErr where
  | streamNotFound
  | streamClosed
  | timeout
deriving DecidableEq

deriving instance DecidableEq for Except

/-- Reader `Adb::streamRead` (Adb.cpp:474-554) with `exact = true`, as a
sequential abstraction: an unknown id fails with `"Stream not found"`
(Adb.cpp:481); if the ring buffer already holds `size` bytes the read
succeeds; otherwise a closed ring buffer fails with `"Stream closed"`
(Adb.cpp:503) and an open one would block (modelled as `timeout`). -/
def streamRead (st : Session) (streamId size : Nat) : Except ReadErr (List Nat) :=
  match st.connectionStreams.lookup streamId with
  | none => .error .streamNotFound
  | some s =>
      if size ≤ s.buf.length then .ok (s.buf.take size)
      else if s.bufClosed then .error .streamClosed
      else .error .timeout

/-- Closer `Adb::streamClose` (Adb.cpp:636-653): erase the registry entry; if
one existed, enqueue a CLSE frame and mark the (still heap-allocated) stream
and its ring buffer closed.  `unordered_map::erase` is modelled by filtering
the key out (keys are unique in reachable sessions). -/
def streamClose (st : Session) (streamId : Nat) : Session × List (List Nat) :=
  match st.connectionStreams.lookup streamId with
  | none => (st, [])
  | some s =>
      (⟨st.connectionStreams.filter fun p => p.1 != streamId⟩,
       [AdbProtocol.generateClose s.localId s.remoteId])

/-- Negotiation step of `Adb::connect` on the authenticated CNXN
(Adb.cpp:141): `maxData_ = message.arg0;` — the peer's advertisement is
recorded unchanged (`uint32_t`), with no clamping against the local cap. -/
def connectMaxData (cnxnArg0 : Nat) : Nat := cnxnArg0 % 2 ^ 32

/-- Chunking loop of `Adb::streamWriteRaw` (Adb.cpp:625-634), unrolled with
explicit fuel (`data.length` steps suffice whenever `bound > 0`; with
`bound = 0`, i.e. `maxData_ == 128`, the C++ loop never terminates).  Each
iteration takes `min(bound, remaining)` bytes. -/
def chunkLoopF (bound : Nat) : Nat → List Nat → List (List Nat)
  | 0, _ => []
  | _ + 1, [] => []
  | fuel + 1, data =>
      if bound = 0 then []
      else data.take bound :: chunkLoopF bound fuel (data.drop bound)

/-- Payload chunks produced by `Adb::streamWriteRaw` (Adb.cpp:625-634):
`chunkSize = min(static_cast<size_t>(maxData_ - 128), len - offset)` per
iteration; the `uint32_t` subtraction `maxData_ - 128` wraps modulo `2^32`. -/
def streamWriteChunks (maxData : Nat) (data : List Nat) : List (List Nat) :=
  chunkLoopF ((maxData + (2 ^ 32 - 128)) % 2 ^ 32) data.length data

/-- Frames handed to `writeToChannel` by `Adb::streamWriteRaw`
(Adb.cpp:625-634): one WRTE per chunk. -/
def streamWriteRaw (maxData localId remoteId : Nat) (data : List Nat) :
    List (List Nat) :=
  (streamWriteChunks maxData data).map (AdbProtocol.generateWrite localId remoteId)

end Adb

namespace AdbKeyPair

/-- PKCS#1 v1.5 / SHA-1 prefix `AdbKeyPair::SIGNATURE_PADDING`
(AdbKeyPair.cpp:20-38), transcribed byte for byte. -/
def SIGNATURE_PADDING : List Nat :=
  [0x00, 0x01,
   0xff, 0xff, 0xff, 0xff, 0xff, 0xff, 0xff, 0xff, 0xff, 0xff, 0xff, 0xff, 0xff, 0xff, 0xff, 0xff,
   0xff, 0xff, 0xff, 0xff, 0xff, 0xff, 0xff, 0xff, 0xff, 0xff, 0xff, 0xff, 0xff, 0xff, 0xff, 0xff,
   0xff, 0xff, 0xff, 0xff, 0xff, 0xff, 0xff, 0xff, 0xff, 0xff, 0xff, 0xff, 0xff, 0xff, 0xff, 0xff,
   0xff, 0xff, 0xff, 0xff, 0xff, 0xff, 0xff, 0xff, 0xff, 0xff, 0xff, 0xff, 0xff, 0xff, 0xff, 0xff,
   0xff, 0xff, 0xff, 0xff, 0xff, 0xff, 0xff, 0xff, 0xff, 0xff, 0xff, 0xff, 0xff, 0xff, 0xff, 0xff,
   0xff, 0xff, 0xff, 0xff, 0xff, 0xff, 0xff, 0xff, 0xff, 0xff, 0xff, 0xff, 0xff, 0xff, 0xff, 0xff,
   0xff, 0xff, 0xff, 0xff, 0xff, 0xff, 0xff, 0xff, 0xff, 0xff, 0xff, 0xff, 0xff, 0xff, 0xff, 0xff,
   0xff, 0xff, 0xff, 0xff, 0xff, 0xff, 0xff, 0xff, 0xff, 0xff, 0xff, 0xff, 0xff, 0xff, 0xff, 0xff,
   0xff, 0xff, 0xff, 0xff, 0xff, 0xff, 0xff, 0xff, 0xff, 0xff, 0xff, 0xff, 0xff, 0xff, 0xff, 0xff,
   0xff, 0xff, 0xff, 0xff, 0xff, 0xff, 0xff, 0xff, 0xff, 0xff, 0xff, 0xff, 0xff, 0xff, 0xff, 0xff,
   0xff, 0xff, 0xff, 0xff, 0xff, 0xff, 0xff, 0xff, 0xff, 0xff, 0xff, 0xff, 0xff, 0xff, 0xff, 0xff,
   0xff, 0xff, 0xff, 0xff, 0xff, 0xff, 0xff, 0xff, 0xff, 0xff, 0xff, 0xff, 0xff, 0xff, 0xff, 0xff,
   0xff, 0xff, 0xff, 0xff, 0xff, 0xff, 0xff, 0xff, 0xff, 0xff, 0xff, 0xff, 0xff, 0xff, 0xff, 0xff,
   0xff, 0xff, 0xff, 0xff, 0xff, 0xff, 0xff, 0xff, 0xff, 0xff,
   0x00,
   0x30, 0x21, 0x30, 0x09, 0x06, 0x05, 0x2b, 0x0e, 0x03, 0x02, 0x1a, 0x05, 0x00, 0x04, 0x14]

/-- Length constant `AdbKeyPair::SIGNATURE_PADDING_LEN = 243`
(AdbKeyPair.h:21).  Note it disagrees with the 236-byte `SIGNATURE_PADDING`
array: the static assertion at AdbKeyPair.cpp:39-40, which compares
`sizeof(SIGNATURE_PADDING)` against this constant, fails on this source. -/
def SIGNATURE_PADDING_LEN : Nat := 243

/-- Raw RSA input block built by `AdbKeyPair::signPayload`
(AdbKeyPair.cpp:366-371): the `combined` buffer of
`SIGNATURE_PADDING_LEN + payloadLen` bytes, whose first
`SIGNATURE_PADDING_LEN = 243` bytes are copied by
`memcpy(combined, SIGNATURE_PADDING, SIGNATURE_PADDING_LEN)` — reading 7
bytes past the end of the 236-byte array.  The out-of-bounds bytes are
unspecified; they are modelled by the byte source `oob`, sampled at the
out-of-range positions. -/
def signBlock (oob : Nat → Nat) (payload : List Nat) : List Nat :=
  ((List.range SIGNATURE_PADDING_LEN).map fun i => SIGNATURE_PADDING.getD i (oob i)) ++ payload

/-- Signer `AdbKeyPair::signPayload` (AdbKeyPair.cpp:355-404).  A null
(`none`) or empty payload returns the single byte `0` (line 356-358); with no
private key loaded it returns 256 zero bytes (lines 360-363); otherwise it
applies the platform's raw RSA-2048 private-key transform — abstracted here
as the parameter `rsa` — to the `signBlock` of the payload (`oob` being the
unspecified bytes of that block's out-of-bounds read).  None of these paths
throws. -/
def signPayload (rsa : List Nat → List Nat) (oob : Nat → Nat) (hasKey : Bool)
    (payload : Option (List Nat)) : List Nat :=
  match payload with
  | none => [0]
  | some p =>
      if p.length = 0 then [0]
      else if !hasKey then List.replicate 256 0
      else rsa (signBlock oob p)

end AdbKeyPair

namespace ScrcpyStreamManager

/-- Big-endian parse `ScrcpyStreamManager::readInt32BE`
(ScrcpyStreamManager.cpp:17-22): the four bytes as a signed 32-bit value
(two's-complement reinterpretation of the shifted-or). -/
def readInt32BE (b0 b1 b2 b3 : Nat) : Int :=
  let u : Nat := b0 % 256 * 2 ^ 24 + b1 % 256 * 2 ^ 16 + b2 % 256 * 2 ^ 8 + b3 % 256
  if u < 2 ^ 31 then (u : Int) else (u : Int) - 2 ^ 32

/-- Outcome of the frame-size validation in the video frame loop of
`ScrcpyStreamManager::videoThreadFunc`: `protocolErrorAbort` is the
log-and-break of lines 252-255 (the loop stops, the frame is never
submitted), `deliver` continues with the zero-copy read and
`SubmitInputBuffer` (lines 257-314). -/
inductive VideoFrameAction where
  | protocolErrorAbort
  | deliver (frameSize : Int)
deriving DecidableEq

/-- Frame-size gate of the video frame loop (ScrcpyStreamManager.cpp:252-255):
`if (frameSize <= 0 || frameSize > 20 * 1024 * 1024) break;`. -/
def videoFrameAction (frameSize : Int) : VideoFrameAction :=
  if frameSize ≤ 0 ∨ frameSize > 20 * 1024 * 1024 then .protocolErrorAbort
  else .deliver frameSize

/-- Outcome of the audio codec-id header phase of
`ScrcpyStreamManager::audioThreadFunc`: either the task returns (terminates),
or it continues with the named codec. -/
inductive AudioHeaderOutcome where
  | terminated
  | useCodec (name : String)
deriving DecidableEq

/-- Codec-id header dispatch of `ScrcpyStreamManager::audioThreadFunc`
(ScrcpyStreamManager.cpp:342-368).  The first component lists the events
emitted through `emitEvent` during this phase: codec id 0 emits
`audio_disabled` and returns (lines 347-351); codec id 1 only logs an error
and returns, emitting nothing (lines 352-355); known four-byte tags select a
codec name, anything else falls back to opus with a warning. -/
def audioHeaderStep (codecId : Int) : List String × AudioHeaderOutcome :=
  if codecId = 0 then (["audio_disabled"], .terminated)
  else if codecId = 1 then ([], .terminated)
  else if codecId = 0x6F707573 then ([], .useCodec "opus")
  else if codecId = 0x00616163 then ([], .useCodec "aac")
  else if codecId = 0x666C6163 then ([], .useCodec "flac")
  else if codecId = 0x00726177 then ([], .useCodec "raw")
  else ([], .useCodec "opus")

end ScrcpyStreamManager

namespace VideoStreamProcessor

/-- Config flag bit of the scrcpy PTS field, `PACKET_FLAG_CONFIG = 1LL << 63`
(ScrcpyStreamManager.cpp:234); PTS values are 64-bit patterns. -/
def PACKET_FLAG_CONFIG : Nat := 2 ^ 63

/-- Decoder flag `AVCODEC_BUFFER_FLAGS_CODEC_DATA` (numeric value 8,
ScrcpyStreamManager.cpp:241). -/
def AVCODEC_BUFFER_FLAGS_CODEC_DATA : Nat := 8

/-- Upper bound `MAX_REASONABLE_FRAME_SIZE = 2 * 1024 * 1024` of
`VideoStreamProcessor::ParseVideoFrame` (video_stream_processor.cpp:383). -/
def MAX_REASONABLE_FRAME_SIZE : Nat := 2 * 1024 * 1024

/-- Framer state of `VideoStreamProcessor`: the held configuration packet
`configBuffer_` awaiting the merge with the next non-config frame
(video_stream_processor.h / video_stream_processor.cpp:440-453). -/
structure FramerState where
  configBuffer : Option (List Nat)
deriving DecidableEq

/-- One decoder hand-off (`PushToDecoder` /
`PushToDecoderFromRingBuffer`): the submitted bytes, the PTS and the flag
word. -/
structure Submission where
  data : List Nat
  pts : Nat
  flags : Nat
deriving DecidableEq

/-- One iteration of `VideoStreamProcessor::ParseVideoFrame`
(video_stream_processor.cpp:354-516) on a completely buffered packet, whose
12-byte header has been parsed into `pts` (the 64-bit big-endian pattern)
and whose `frameSize` payload bytes are `data`.  The `pendingFlags_` value
stored by `PushData` carries `AVCODEC_BUFFER_FLAGS_CODEC_DATA` exactly when
the packet's PTS bit 63 was set (the pushing layer derives it that way,
cf. ScrcpyStreamManager.cpp:234-242), so the flag word is recomputed here
from the PTS.  An out-of-range size is dropped for resynchronisation (lines
385-397).  A config packet is stored for merging and nothing is submitted
(lines 440-453); a non-config packet is submitted merged with the held
config bytes if any (lines 457-497), directly otherwise (lines 499-515). -/
def framerStep (st : FramerState) (pts : Nat) (data : List Nat) :
    FramerState × List Submission :=
  let flags := if pts &&& PACKET_FLAG_CONFIG ≠ 0 then AVCODEC_BUFFER_FLAGS_CODEC_DATA else 0
  let isConfig := flags &&& AVCODEC_BUFFER_FLAGS_CODEC_DATA ≠ 0
  if data.length = 0 ∨ MAX_REASONABLE_FRAME_SIZE < data.length then (st, [])
  else if isConfig then ({ configBuffer := some data }, [])
  else
    match st.configBuffer with
    | some cfg => ({ configBuffer := none }, [⟨cfg ++ data, pts, flags⟩])
    | none => ({ configBuffer := none }, [⟨data, pts, flags⟩])

/-- The framer run over a packet sequence: fold of `framerStep`, collecting
all decoder submissions in order. -/
def framerRun (st : FramerState) : List (Nat × List Nat) → FramerState × List Submission
  | [] => (st, [])
  | (pts, data) :: rest =>
      let out := framerStep st pts data
      let outRest := framerRun out.1 rest
      (outRest.1, out.2 ++ outRest.2)

end VideoStreamProcessor

/-- Round-trip of the ADB framing codec: `AdbMessage::parse` recovers the
fields and payload written by `AdbProtocol::generateMessage` (shared helper
for the claim theorems below). -/
theorem AdbProtocol.parse_generateMessage (cmd arg0 arg1 : Nat) (payload : List Nat)
    (hc : cmd < 2 ^ 32) (h0 : arg0 < 2 ^ 32) (h1 : arg1 < 2 ^ 32)
    (hp : payload.length < 2 ^ 32) :
    AdbProtocol.parse (AdbProtocol.generateMessage cmd arg0 arg1 payload) =
      some (cmd, arg0, arg1, payload) := by
  unfold AdbProtocol.generateMessage AdbProtocol.parse
  by_cases hz : payload.length = 0
  · have hpe : payload = [] := List.length_eq_zero.mp hz
    subst hpe
    simp [AdbProtocol.writeU32LE, AdbProtocol.readU32LE, List.getD]
    omega
  · simp only [hz, if_neg, ite_false]
    simp [AdbProtocol.writeU32LE, AdbProtocol.readU32LE, List.getD, Nat.mod_eq_of_lt hp]
    omega

/-- C1: for every ADB frame with a command tag, `arg0`, `arg1` and an
arbitrary payload (32-bit fields, payload shorter than `2^32`), encoding it
with `generateMessage` and then decoding the bytes with the
`AdbMessage::parse` header/payload layout (`command@0`, `arg0@4`, `arg1@8`,
`payload_length@12`, little-endian, payload after the 24-byte header) yields
the same `{command, arg0, arg1, payload}`. -/
theorem C1_generate_parse_roundtrip (cmd arg0 arg1 : Nat) (payload : List Nat)
    (hc : cmd < 2 ^ 32) (h0 : arg0 < 2 ^ 32) (h1 : arg1 < 2 ^ 32)
    (hp : payload.length < 2 ^ 32) :
    AdbProtocol.parse (AdbProtocol.generateMessage cmd arg0 arg1 payload) =
      some (cmd, arg0, arg1, payload) :=
  AdbProtocol.parse_generateMessage cmd arg0 arg1 payload hc h0 h1 hp

/-- Witness for C1 at a concrete frame. -/
theorem C1_generate_parse_roundtrip_witness :
    (AdbProtocol.CMD_WRTE < 2 ^ 32 ∧ 7 < 2 ^ 32 ∧ 9 < 2 ^ 32 ∧
      ([1, 2, 250] : List Nat).length < 2 ^ 32) ∧
    AdbProtocol.parse (AdbProtocol.generateMessage AdbProtocol.CMD_WRTE 7 9 [1, 2, 250]) =
      some (AdbProtocol.CMD_WRTE, 7, 9, [1, 2, 250]) :=
  ⟨by decide, C1_generate_parse_roundtrip AdbProtocol.CMD_WRTE 7 9 [1, 2, 250]
    (by decide) (by decide) (by decide) (by decide)⟩

/-- Every chunk produced by the `streamWriteRaw` chunking loop is at most
`bound` bytes long. -/
theorem Adb.chunkLoopF_length_le (bound : Nat) :
    ∀ (fuel : Nat) (data : List Nat), ∀ c ∈ Adb.chunkLoopF bound fuel data, c.length ≤ bound := by
  intro fuel
  induction fuel with
  | zero => intro data c hc; simp [Adb.chunkLoopF] at hc
  | succ f ih =>
      intro data c hc
      match data with
      | [] => simp [Adb.chunkLoopF] at hc
      | d :: ds =>
          by_cases hb : bound = 0
          · simp [Adb.chunkLoopF, hb] at hc
          · simp only [Adb.chunkLoopF, hb, if_false, List.mem_cons] at hc
            rcases hc with hc | hc
            · subst hc
              exact List.length_take_le _ _
            · exact ih _ c hc

/-- The chunks of the `streamWriteRaw` chunking loop concatenate back to the
input, provided the loop makes progress (`bound > 0`) and the fuel covers the
input length. -/
theorem Adb.chunkLoopF_join (bound : Nat) (hb : 0 < bound) :
    ∀ (fuel : Nat) (data : List Nat), data.length ≤ fuel →
      (Adb.chunkLoopF bound fuel data).flatten = data := by
  intro fuel
  induction fuel with
  | zero =>
      intro data hlen
      have : data = [] := List.length_eq_zero.mp (Nat.le_zero.mp hlen)
      subst this; rfl
  | succ f ih =>
      intro data hlen
      match data with
      | [] => rfl
      | d :: ds =>
          have hb' : ¬ bound = 0 := Nat.pos_iff_ne_zero.mp hb
          simp only [Adb.chunkLoopF, hb', if_false, List.flatten_cons]
          rw [ih ((d :: ds).drop bound) (by simp at hlen ⊢; omega)]
          exact List.take_append_drop bound (d :: ds)

/-- C2 counterexample: on a CNXN advertising `max_payload = 1048576` (more
than the local cap `CONNECT_MAXDATA = 15360`), `Adb::connect` records the
advertised value itself (`maxData_ = message.arg0`, Adb.cpp:141), not the
minimum of the advertisement and the local cap as claimed. -/
theorem C2_min_counterexample :
    Adb.connectMaxData 1048576 = 1048576 ∧
    min 1048576 AdbProtocol.CONNECT_MAXDATA = 15360 ∧
    Adb.connectMaxData 1048576 ≠ min 1048576 AdbProtocol.CONNECT_MAXDATA := by
  decide

/-- C2 (amended): on the authenticated CNXN, `Adb::connect` records
`max_payload` as exactly the peer's advertised value (no clamping against the
local cap); and for every stream write, the chunker in `streamWriteRaw` never
produces a WRTE payload exceeding `max_payload - 128` bytes (and the chunks
concatenate to the written data), provided `128 < max_payload < 2^32`. -/
theorem C2_maxData_and_chunk_bound (advertised maxData : Nat) (data : List Nat)
    (hadv : advertised < 2 ^ 32) (hm1 : 128 < maxData) (hm2 : maxData < 2 ^ 32) :
    Adb.connectMaxData advertised = advertised ∧
    (∀ c ∈ Adb.streamWriteChunks maxData data, c.length ≤ maxData - 128) ∧
    (Adb.streamWriteChunks maxData data).flatten = data := by
  have hbound : (maxData + (2 ^ 32 - 128)) % 2 ^ 32 = maxData - 128 := by omega
  refine ⟨Nat.mod_eq_of_lt hadv, ?_, ?_⟩
  · intro c hc
    have := Adb.chunkLoopF_length_le ((maxData + (2 ^ 32 - 128)) % 2 ^ 32) data.length data c hc
    omega
  · unfold Adb.streamWriteChunks
    rw [hbound]
    exact Adb.chunkLoopF_join (maxData - 128) (by omega) data.length data le_rfl

/-- Witness for C2 at a concrete advertisement, bound and write. -/
theorem C2_maxData_and_chunk_bound_witness :
    (1000 < 2 ^ 32 ∧ 128 < 4096 ∧ 4096 < 2 ^ 32) ∧
    (Adb.connectMaxData 1000 = 1000 ∧
     (∀ c ∈ Adb.streamWriteChunks 4096 [1, 2, 3], c.length ≤ 4096 - 128) ∧
     (Adb.streamWriteChunks 4096 [1, 2, 3]).flatten = [1, 2, 3]) :=
  ⟨by decide, C2_maxData_and_chunk_bound 1000 4096 [1, 2, 3]
    (by decide) (by decide) (by decide)⟩

/-- C3: for every video packet sequence of one packet whose PTS bit 63
(CONFIG) is set followed by one packet with bit 63 clear (both with valid
frame sizes), the merging video framer (`VideoStreamProcessor::ParseVideoFrame`)
performs exactly one decoder submission: the combined buffer — config bytes
prepended to the non-config bytes — with the non-config packet's PTS (bit 63
masked off) and with the CODEC_DATA flag cleared (flag word 0). -/
theorem C3_config_merge_single_submission (ptsC ptsF : Nat) (cfg frame : List Nat)
    (hC1 : 2 ^ 63 ≤ ptsC) (hC2 : ptsC < 2 ^ 64) (hF : ptsF < 2 ^ 63)
    (hcfg1 : 0 < cfg.length)
    (hcfg2 : cfg.length ≤ VideoStreamProcessor.MAX_REASONABLE_FRAME_SIZE)
    (hfrm1 : 0 < frame.length)
    (hfrm2 : frame.length ≤ VideoStreamProcessor.MAX_REASONABLE_FRAME_SIZE) :
    VideoStreamProcessor.framerRun ⟨none⟩ [(ptsC, cfg), (ptsF, frame)] =
      (⟨none⟩, [⟨cfg ++ frame, ptsF &&& (2 ^ 63 - 1), 0⟩]) := by
  have hCbit : ptsC &&& VideoStreamProcessor.PACKET_FLAG_CONFIG ≠ 0 := by
    unfold VideoStreamProcessor.PACKET_FLAG_CONFIG
    rw [Nat.and_two_pow]
    have ht : ptsC.testBit 63 = true := by
      rw [Nat.testBit_to_div_mod]
      simp only [decide_eq_true_eq]
      omega
    simp [ht]
  have hFbit : ptsF &&& VideoStreamProcessor.PACKET_FLAG_CONFIG = 0 := by
    unfold VideoStreamProcessor.PACKET_FLAG_CONFIG
    rw [Nat.and_two_pow, Nat.testBit_eq_false_of_lt hF]
    rfl
  have hmask : ptsF &&& (2 ^ 63 - 1) = ptsF := by
    rw [Nat.and_pow_two_sub_one_eq_mod]
    exact Nat.mod_eq_of_lt hF
  unfold VideoStreamProcessor.MAX_REASONABLE_FRAME_SIZE at hcfg2 hfrm2
  have g1 : cfg ≠ [] := by intro h; subst h; simp at hcfg1
  have g2 : ¬ 2097152 < cfg.length := by omega
  have g3 : frame ≠ [] := by intro h; subst h; simp at hfrm1
  have g4 : ¬ 2097152 < frame.length := by omega
  simp [VideoStreamProcessor.framerRun, VideoStreamProcessor.framerStep,
        VideoStreamProcessor.MAX_REASONABLE_FRAME_SIZE,
        VideoStreamProcessor.AVCODEC_BUFFER_FLAGS_CODEC_DATA,
        hCbit, hFbit, hmask, g1, g2, g3, g4]
  have hlit : (9223372036854775807 : Nat) = 2 ^ 63 - 1 := by norm_num
  rw [hlit, Nat.and_pow_two_sub_one_eq_mod, Nat.mod_eq_of_lt hF]

/-- Witness for C3 at a concrete config/frame packet pair. -/
theorem C3_config_merge_single_submission_witness :
    (2 ^ 63 ≤ (2 ^ 63 : Nat) ∧ (2 ^ 63 : Nat) < 2 ^ 64 ∧ (100 : Nat) < 2 ^ 63 ∧
     0 < ([1] : List Nat).length ∧
     ([1] : List Nat).length ≤ VideoStreamProcessor.MAX_REASONABLE_FRAME_SIZE ∧
     0 < ([2, 3] : List Nat).length ∧
     ([2, 3] : List Nat).length ≤ VideoStreamProcessor.MAX_REASONABLE_FRAME_SIZE) ∧
    VideoStreamProcessor.framerRun ⟨none⟩ [(2 ^ 63, [1]), (100, [2, 3])] =
      (⟨none⟩, [⟨[1] ++ [2, 3], 100 &&& (2 ^ 63 - 1), 0⟩]) :=
  ⟨by decide, C3_config_merge_single_submission (2 ^ 63) 100 [1] [2, 3]
    (by decide) (by decide) (by decide) (by decide) (by decide) (by decide) (by decide)⟩

/-- C4 counterexample: a WRTE with an empty payload is handled on the normal
path of `Adb::handleInLoop` (the OKAY reply at Adb.cpp:230-232 is guarded by
`payloadLen > 0`), so no OKAY is enqueued — refuting the claim for "any
payload length". -/
theorem C4_empty_wrte_counterexample :
    (Adb.handleMessage ⟨[]⟩ AdbProtocol.CMD_WRTE 7 3 []).2 = [] ∧
    (Adb.handleMessage ⟨[]⟩ AdbProtocol.CMD_WRTE 7 3 []).2 ≠
      [AdbProtocol.generateOkay 3 7] := by
  decide

/-- C4 (amended): for every WRTE message the receive loop processes whose
payload is non-empty, exactly one OKAY frame is handed to the sender side,
and its header references the same (local_id, remote_id) pair as the WRTE:
the OKAY's `arg0` is the WRTE's `arg1` (our local id) and its `arg1` is the
WRTE's `arg0` (the peer's id).  A WRTE with an empty payload enqueues no
OKAY. -/
theorem C4_wrte_okay_exactly_one (st : Adb.Session) (arg0 arg1 : Nat)
    (payload : List Nat) (hp : payload ≠ [])
    (h0 : arg0 < 2 ^ 32) (h1 : arg1 < 2 ^ 32) :
    (Adb.handleMessage st AdbProtocol.CMD_WRTE arg0 arg1 payload).2 =
      [AdbProtocol.generateOkay arg1 arg0] ∧
    AdbProtocol.parse (AdbProtocol.generateOkay arg1 arg0) =
      some (AdbProtocol.CMD_OKAY, arg1, arg0, []) := by
  constructor
  · have hlen : 0 < payload.length := List.length_pos.mpr hp
    simp [Adb.handleMessage, hlen]
  · exact AdbProtocol.parse_generateMessage AdbProtocol.CMD_OKAY arg1 arg0 []
      (by decide) h1 h0 (by decide)

/-- Witness for C4 at a concrete session and WRTE. -/
theorem C4_wrte_okay_exactly_one_witness :
    (([5] : List Nat) ≠ [] ∧ 7 < 2 ^ 32 ∧ 3 < 2 ^ 32) ∧
    ((Adb.handleMessage ⟨[]⟩ AdbProtocol.CMD_WRTE 7 3 [5]).2 =
        [AdbProtocol.generateOkay 3 7] ∧
     AdbProtocol.parse (AdbProtocol.generateOkay 3 7) =
        some (AdbProtocol.CMD_OKAY, 3, 7, [])) :=
  ⟨by decide, C4_wrte_okay_exactly_one ⟨[]⟩ 7 3 [5] (by decide) (by decide) (by decide)⟩

/-- C5: for every parsed video frame header, a `frame_size` equal to 0 and a
`frame_size` greater than 20 MiB both take the protocol-error branch of the
video frame loop (ScrcpyStreamManager.cpp:252-255): the frame is never
submitted and the loop breaks, terminating the video stream. -/
theorem C5_invalid_frame_size_aborts (frameSize : Int) :
    (frameSize = 0 →
      ScrcpyStreamManager.videoFrameAction frameSize = .protocolErrorAbort) ∧
    (20 * 1024 * 1024 < frameSize →
      ScrcpyStreamManager.videoFrameAction frameSize = .protocolErrorAbort) := by
  constructor
  · intro h
    subst h
    decide
  · intro h
    simp [ScrcpyStreamManager.videoFrameAction]
    omega

/-- Witness for C5 at frame sizes 0 and 20 MiB + 1. -/
theorem C5_invalid_frame_size_aborts_witness :
    ((0 : Int) = 0 ∧
      ScrcpyStreamManager.videoFrameAction 0 = .protocolErrorAbort) ∧
    ((20 * 1024 * 1024 : Int) < 20971521 ∧
      ScrcpyStreamManager.videoFrameAction 20971521 = .protocolErrorAbort) :=
  ⟨⟨rfl, (C5_invalid_frame_size_aborts 0).1 rfl⟩,
   ⟨by decide, (C5_invalid_frame_size_aborts 20971521).2 (by decide)⟩⟩

/-- C6 counterexample: on audio codec id 1 the task terminates after only
logging (`OH_LOG_ERROR` and `return`, ScrcpyStreamManager.cpp:352-355); no
`error` event is emitted through `emitEvent`, refuting the claimed error
event. -/
theorem C6_no_error_event_counterexample :
    (ScrcpyStreamManager.audioHeaderStep 1).1 = [] ∧
    "error" ∉ (ScrcpyStreamManager.audioHeaderStep 1).1 := by
  decide

/-- C6 (amended): for the audio task's 4-byte codec id header, value 0 emits
the `audio_disabled` event and terminates the task normally, and value 1
terminates the task without emitting any event (it only logs an error). -/
theorem C6_audio_sentinel_dispatch :
    ScrcpyStreamManager.audioHeaderStep 0 = (["audio_disabled"], .terminated) ∧
    ScrcpyStreamManager.audioHeaderStep 1 = (([] : List String), .terminated) := by
  decide

/-- Looking up a key in an association list from which every entry with that
key has been filtered out yields nothing. -/
theorem Adb.lookup_filter_ne (m : List (Nat × Adb.AdbStream)) (k : Nat) :
    (m.filter fun p => p.1 != k).lookup k = none := by
  induction m with
  | nil => rfl
  | cons hd tl ih =>
      obtain ⟨a, s⟩ := hd
      by_cases h : a = k
      · subst h
        simp only [List.filter_cons, bne_self_eq_false, Bool.false_eq_true, if_false]
        exact ih
      · have hb : ((a, s).1 != k) = true := by simp [h]
        simp only [List.filter_cons, hb, if_true]
        simp only [List.lookup]
        have hk : (k == a) = false := by simp; exact fun hh => h hh.symm
        rw [hk]
        exact ih

/-- C7 counterexample: after `streamClose(5)` on a session holding stream 5,
a `streamRead(5, …)` fails with the "Stream not found" kind (the registry
entry was erased by `streamClose`, Adb.cpp:641-644), not with the
"Stream closed" kind the claim names. -/
theorem C7_read_after_close_counterexample :
    Adb.streamRead (Adb.streamClose ⟨[(5, ⟨5, 9, false, false, []⟩)]⟩ 5).1 5 1 =
      .error .streamNotFound ∧
    Adb.streamRead (Adb.streamClose ⟨[(5, ⟨5, 9, false, false, []⟩)]⟩ 5).1 5 1 ≠
      .error .streamClosed := by
  decide

/-- C7 (amended): for every stream id `L` on which `streamClose(L)` has
returned, any subsequent `streamRead(L, …)` fails with the "Stream not
found" error kind: `streamClose` erases the registry entry (Adb.cpp:641-644)
and `streamRead` throws `"Stream not found"` for an unregistered id
(Adb.cpp:481).  The "Stream closed" kind arises only for streams still in
the registry whose ring buffer has been closed (e.g. by a peer CLSE). -/
theorem C7_read_after_close_not_found (st : Adb.Session) (l n : Nat) :
    Adb.streamRead (Adb.streamClose st l).1 l n = .error .streamNotFound := by
  unfold Adb.streamClose
  cases hf : st.connectionStreams.lookup l with
  | none => simp [Adb.streamRead, hf]
  | some s => simp [Adb.streamRead, Adb.lookup_filter_ne]

/-- The constructor's doubling loop preserves powers of two. -/
theorem AdbRing.growPow2_isPow2 (t : Nat) :
    ∀ (fuel cap : Nat), (∃ k, cap = 2 ^ k) → ∃ k, AdbRing.growPow2 t fuel cap = 2 ^ k := by
  intro fuel
  induction fuel with
  | zero => intro cap h; simpa [AdbRing.growPow2] using h
  | succ f ih =>
      intro cap h
      simp only [AdbRing.growPow2]
      split
      · refine ih (cap * 2) ?_
        obtain ⟨k, rfl⟩ := h
        exact ⟨k + 1, by ring⟩
      · exact h

/-- The capacity of a freshly constructed ring buffer is a power of two. -/
theorem AdbRing.mk_capacity_pow2 (req : Nat) :
    ∃ k, (AdbRing.mkRingBuffer req).capacity = 2 ^ k :=
  AdbRing.growPow2_isPow2 (max 4096 req) (max 4096 req) 1 ⟨0, rfl⟩

/-- API calls never change the capacity. -/
theorem AdbRing.reach_capacity {req : Nat} {b : AdbRing.RingBuffer}
    (h : AdbRing.Reach req b) :
    b.capacity = (AdbRing.mkRingBuffer req).capacity := by
  induction h with
  | init => rfl
  | step op hr hv ih =>
      cases op <;>
        simpa [AdbRing.RBOp.step, AdbRing.RingBuffer.commitWrite,
               AdbRing.RingBuffer.consumeRead] using ih

/-- The writable region never exceeds the free space. -/
theorem AdbRing.getWritePtr_len_le (b : AdbRing.RingBuffer) :
    b.getWritePtr.len ≤ b.capacity - b.size := by
  unfold AdbRing.RingBuffer.getWritePtr AdbRing.RingBuffer.size
  dsimp only
  split
  · simp
  · exact min_le_left _ _

/-- The readable region never exceeds the occupancy. -/
theorem AdbRing.getReadPtr_len_le (b : AdbRing.RingBuffer) :
    b.getReadPtr.len ≤ b.size := by
  unfold AdbRing.RingBuffer.getReadPtr AdbRing.RingBuffer.size
  dsimp only
  split
  · simp
  · exact min_le_left _ _

/-- Main reachability invariant: the consumer counter never passes the
producer counter, and the occupancy never exceeds the capacity. -/
theorem AdbRing.reach_inv {req : Nat} {b : AdbRing.RingBuffer}
    (h : AdbRing.Reach req b) :
    b.tail ≤ b.head ∧ b.head - b.tail ≤ b.capacity := by
  induction h with
  | init => simp [AdbRing.mkRingBuffer]
  | @step b op hr hv ih =>
      cases op with
      | getWritePtr => exact ih
      | getReadPtr => exact ih
      | commitWrite n =>
          have hv' : n ≤ b.getWritePtr.len := hv
          have hw : b.getWritePtr.len ≤ b.capacity - b.size := AdbRing.getWritePtr_len_le b
          unfold AdbRing.RingBuffer.size at hw
          simp only [AdbRing.RBOp.step, AdbRing.RingBuffer.commitWrite]
          exact ⟨by omega, by omega⟩
      | consumeRead n =>
          have hv' : n ≤ b.getReadPtr.len := hv
          have hr2 : b.getReadPtr.len ≤ b.size := AdbRing.getReadPtr_len_le b
          unfold AdbRing.RingBuffer.size at hr2
          simp only [AdbRing.RBOp.step, AdbRing.RingBuffer.consumeRead]
          exact ⟨by omega, by omega⟩

/-- C8: in every reachable ring-buffer state (any interleaved sequence of
`getWritePtr`/`commitWrite` by the producer and `getReadPtr`/`consumeRead`
by the consumer, considered as a sequential program): the occupancy `size`
equals `head - tail` and stays between 0 and the capacity; `getWritePtr`
returns length 0 exactly when the buffer is full and otherwise a contiguous
region at slot `head % capacity` (which is `head & (capacity - 1)`, the
capacity being a power of two) fitting in the free space; `getReadPtr`
returns length 0 exactly when the buffer is empty; and neither `getWritePtr`
nor `getReadPtr` changes `head` or `tail`. -/
theorem C8_ring_buffer_invariants (req : Nat) (b : AdbRing.RingBuffer)
    (h : AdbRing.Reach req b) :
    b.tail ≤ b.head ∧
    b.size = b.head - b.tail ∧
    b.size ≤ b.capacity ∧
    (b.getWritePtr.len = 0 ↔ b.size = b.capacity) ∧
    (b.getWritePtr.len ≠ 0 →
        b.getWritePtr.idx = b.head % b.capacity ∧
        b.getWritePtr.idx + b.getWritePtr.len ≤ b.capacity ∧
        b.getWritePtr.len ≤ b.capacity - b.size) ∧
    (b.getReadPtr.len = 0 ↔ b.size = 0) ∧
    AdbRing.RBOp.step .getWritePtr b = b ∧
    AdbRing.RBOp.step .getReadPtr b = b := by
  obtain ⟨ht, hs⟩ := AdbRing.reach_inv h
  obtain ⟨k, hk⟩ : ∃ k, b.capacity = 2 ^ k := by
    rw [AdbRing.reach_capacity h]
    exact AdbRing.mk_capacity_pow2 req
  have hcap1 : 1 ≤ b.capacity := by
    rw [hk]
    exact Nat.one_le_two_pow
  have hidxw : b.head &&& (b.capacity - 1) ≤ b.capacity - 1 := Nat.and_le_right
  have hidxr : b.tail &&& (b.capacity - 1) ≤ b.capacity - 1 := Nat.and_le_right
  have hmodw : b.head &&& (b.capacity - 1) = b.head % b.capacity := by
    rw [hk]
    exact Nat.and_pow_two_sub_one_eq_mod b.head k
  refine ⟨ht, rfl, hs, ?_, ?_, ?_, rfl, rfl⟩
  · unfold AdbRing.RingBuffer.getWritePtr AdbRing.RingBuffer.size
    dsimp only
    split
    · simp
      omega
    · simp only [AdbRing.RingBuffer.size]
      constructor
      · intro hlen
        exfalso
        have h1 : b.capacity - (b.head - b.tail) = 0 ∨ b.capacity - (b.head &&& (b.capacity - 1)) = 0 := by
          rcases Nat.min_eq_zero_iff.mp hlen with h1 | h1
          · exact Or.inl h1
          · exact Or.inr h1
        omega
      · intro heq
        omega
  · unfold AdbRing.RingBuffer.getWritePtr AdbRing.RingBuffer.size
    dsimp only
    split
    · intro hne
      simp at hne
    · intro _
      refine ⟨hmodw, ?_, ?_⟩
      · have := min_le_right (b.capacity - (b.head - b.tail)) (b.capacity - (b.head &&& (b.capacity - 1)))
        simp only [AdbRing.Region.idx, AdbRing.Region.len]
        omega
      · have := min_le_left (b.capacity - (b.head - b.tail)) (b.capacity - (b.head &&& (b.capacity - 1)))
        simp only [AdbRing.Region.len, AdbRing.RingBuffer.size]
        omega
  · unfold AdbRing.RingBuffer.getReadPtr AdbRing.RingBuffer.size
    dsimp only
    split
    · simp
      omega
    · simp only [AdbRing.RingBuffer.size]
      constructor
      · intro hlen
        exfalso
        rcases Nat.min_eq_zero_iff.mp hlen with h1 | h1
        · omega
        · omega
      · intro heq
        omega

/-- Witness for C8 at a concrete reachable state: construct the buffer,
commit 5 bytes, consume 3. -/
theorem C8_ring_buffer_invariants_witness :
    AdbRing.Reach 0
      (AdbRing.RBOp.step (.consumeRead 3)
        (AdbRing.RBOp.step (.commitWrite 5) (AdbRing.mkRingBuffer 0))) ∧
    ((AdbRing.RBOp.step (.consumeRead 3)
        (AdbRing.RBOp.step (.commitWrite 5) (AdbRing.mkRingBuffer 0))).tail ≤
      (AdbRing.RBOp.step (.consumeRead 3)
        (AdbRing.RBOp.step (.commitWrite 5) (AdbRing.mkRingBuffer 0))).head ∧
     (AdbRing.RBOp.step (.consumeRead 3)
        (AdbRing.RBOp.step (.commitWrite 5) (AdbRing.mkRingBuffer 0))).size =
      (AdbRing.RBOp.step (.consumeRead 3)
        (AdbRing.RBOp.step (.commitWrite 5) (AdbRing.mkRingBuffer 0))).head -
      (AdbRing.RBOp.step (.consumeRead 3)
        (AdbRing.RBOp.step (.commitWrite 5) (AdbRing.mkRingBuffer 0))).tail ∧
     (AdbRing.RBOp.step (.consumeRead 3)
        (AdbRing.RBOp.step (.commitWrite 5) (AdbRing.mkRingBuffer 0))).size ≤
      (AdbRing.RBOp.step (.consumeRead 3)
        (AdbRing.RBOp.step (.commitWrite 5) (AdbRing.mkRingBuffer 0))).capacity ∧
     ((AdbRing.RBOp.step (.consumeRead 3)
        (AdbRing.RBOp.step (.commitWrite 5) (AdbRing.mkRingBuffer 0))).getWritePtr.len = 0 ↔
      (AdbRing.RBOp.step (.consumeRead 3)
        (AdbRing.RBOp.step (.commitWrite 5) (AdbRing.mkRingBuffer 0))).size =
      (AdbRing.RBOp.step (.consumeRead 3)
        (AdbRing.RBOp.step (.commitWrite 5) (AdbRing.mkRingBuffer 0))).capacity) ∧
     ((AdbRing.RBOp.step (.consumeRead 3)
        (AdbRing.RBOp.step (.commitWrite 5) (AdbRing.mkRingBuffer 0))).getWritePtr.len ≠ 0 →
       (AdbRing.RBOp.step (.consumeRead 3)
        (AdbRing.RBOp.step (.commitWrite 5) (AdbRing.mkRingBuffer 0))).getWritePtr.idx =
       (AdbRing.RBOp.step (.consumeRead 3)
        (AdbRing.RBOp.step (.commitWrite 5) (AdbRing.mkRingBuffer 0))).head %
       (AdbRing.RBOp.step (.consumeRead 3)
        (AdbRing.RBOp.step (.commitWrite 5) (AdbRing.mkRingBuffer 0))).capacity ∧
       (AdbRing.RBOp.step (.consumeRead 3)
        (AdbRing.RBOp.step (.commitWrite 5) (AdbRing.mkRingBuffer 0))).getWritePtr.idx +
       (AdbRing.RBOp.step (.consumeRead 3)
        (AdbRing.RBOp.step (.commitWrite 5) (AdbRing.mkRingBuffer 0))).getWritePtr.len ≤
       (AdbRing.RBOp.step (.consumeRead 3)
        (AdbRing.RBOp.step (.commitWrite 5) (AdbRing.mkRingBuffer 0))).capacity ∧
       (AdbRing.RBOp.step (.consumeRead 3)
        (AdbRing.RBOp.step (.commitWrite 5) (AdbRing.mkRingBuffer 0))).getWritePtr.len ≤
       (AdbRing.RBOp.step (.consumeRead 3)
        (AdbRing.RBOp.step (.commitWrite 5) (AdbRing.mkRingBuffer 0))).capacity -
       (AdbRing.RBOp.step (.consumeRead 3)
        (AdbRing.RBOp.step (.commitWrite 5) (AdbRing.mkRingBuffer 0))).size) ∧
     ((AdbRing.RBOp.step (.consumeRead 3)
        (AdbRing.RBOp.step (.commitWrite 5) (AdbRing.mkRingBuffer 0))).getReadPtr.len = 0 ↔
      (AdbRing.RBOp.step (.consumeRead 3)
        (AdbRing.RBOp.step (.commitWrite 5) (AdbRing.mkRingBuffer 0))).size = 0) ∧
     AdbRing.RBOp.step .getWritePtr
       (AdbRing.RBOp.step (.consumeRead 3)
        (AdbRing.RBOp.step (.commitWrite 5) (AdbRing.mkRingBuffer 0))) =
       (AdbRing.RBOp.step (.consumeRead 3)
        (AdbRing.RBOp.step (.commitWrite 5) (AdbRing.mkRingBuffer 0))) ∧
     AdbRing.RBOp.step .getReadPtr
       (AdbRing.RBOp.step (.consumeRead 3)
        (AdbRing.RBOp.step (.commitWrite 5) (AdbRing.mkRingBuffer 0))) =
       (AdbRing.RBOp.step (.consumeRead 3)
        (AdbRing.RBOp.step (.commitWrite 5) (AdbRing.mkRingBuffer 0)))) := by
  have h1 : AdbRing.Reach 0 (AdbRing.mkRingBuffer 0) := .init
  have h2 : AdbRing.Reach 0 (AdbRing.RBOp.step (.commitWrite 5) (AdbRing.mkRingBuffer 0)) :=
    AdbRing.Reach.step (.commitWrite 5) h1
      (show 5 ≤ (AdbRing.RingBuffer.getWritePtr (AdbRing.mkRingBuffer 0)).len by decide)
  have h3 : AdbRing.Reach 0
      (AdbRing.RBOp.step (.consumeRead 3)
        (AdbRing.RBOp.step (.commitWrite 5) (AdbRing.mkRingBuffer 0))) :=
    AdbRing.Reach.step (.consumeRead 3) h2
      (show 3 ≤ (AdbRing.RingBuffer.getReadPtr
        (AdbRing.RBOp.step (.commitWrite 5) (AdbRing.mkRingBuffer 0))).len by decide)
  exact ⟨h3, C8_ring_buffer_invariants 0 _ h3⟩

set_option maxRecDepth 4000 in
/-- C9 (code bug): the 236-byte `SIGNATURE_PADDING` array has exactly the
claimed value (`00 01`, 218 bytes of `FF`, `00`, the 15-byte SHA-1
DigestInfo), but the declared `SIGNATURE_PADDING_LEN` is 243
(AdbKeyPair.h:21), so the static assertion at AdbKeyPair.cpp:39-40 — which
compares `sizeof(SIGNATURE_PADDING)` with `SIGNATURE_PADDING_LEN` — fails
on this source, and for a 20-byte token `signPayload` builds a 263-byte raw
RSA input block (copying 7 bytes from past the end of the array), not the
256-byte `SIGNATURE_PADDING ++ token` block the claim (and the RSA-2048
block size) require; this holds whatever the 7 out-of-bounds bytes are. -/
theorem C9_padding_len_mismatch_bug :
    AdbKeyPair.SIGNATURE_PADDING =
      [0x00, 0x01] ++ List.replicate 218 0xff ++ [0x00] ++
      [0x30, 0x21, 0x30, 0x09, 0x06, 0x05, 0x2b, 0x0e,
       0x03, 0x02, 0x1a, 0x05, 0x00, 0x04, 0x14] ∧
    AdbKeyPair.SIGNATURE_PADDING.length = 236 ∧
    AdbKeyPair.SIGNATURE_PADDING_LEN = 243 ∧
    AdbKeyPair.SIGNATURE_PADDING.length ≠ AdbKeyPair.SIGNATURE_PADDING_LEN ∧
    (∀ oob : Nat → Nat,
      (AdbKeyPair.signBlock oob (List.replicate 20 170)).length = 263 ∧
      (AdbKeyPair.signBlock oob (List.replicate 20 170)).length ≠ 256 ∧
      (AdbKeyPair.signBlock oob (List.replicate 20 170)).take 236 =
        AdbKeyPair.SIGNATURE_PADDING) := by
  have hl : AdbKeyPair.SIGNATURE_PADDING.length = 236 := by decide
  refine ⟨by decide, hl, rfl, by decide, ?_⟩
  intro oob
  have hlen : (AdbKeyPair.signBlock oob (List.replicate 20 170)).length = 263 := by
    simp [AdbKeyPair.signBlock, AdbKeyPair.SIGNATURE_PADDING_LEN]
  refine ⟨hlen, by omega, ?_⟩
  unfold AdbKeyPair.signBlock
  rw [List.take_append_of_le_length]
  · apply List.ext_getElem
    · simp [AdbKeyPair.SIGNATURE_PADDING_LEN, hl]
    · intro i h1 h2
      simp only [List.getElem_take, List.getElem_map, List.getElem_range]
      rw [List.getD_eq_getElem _ _ h2]
  · simp [AdbKeyPair.SIGNATURE_PADDING_LEN, hl]

/-- C10: at the public signing interface, `signPayload` called with a null
(`none`) or zero-length payload returns the single zero byte instead of
performing a signature, and called when no private key is loaded it returns
256 zero bytes; in neither case does it raise an error (all three paths
return normally). -/
theorem C10_sign_payload_degenerate (rsa : List Nat → List Nat) (oob : Nat → Nat)
    (hasKey : Bool) (p : List Nat) (hp : p ≠ []) :
    AdbKeyPair.signPayload rsa oob hasKey none = [0] ∧
    AdbKeyPair.signPayload rsa oob hasKey (some []) = [0] ∧
    AdbKeyPair.signPayload rsa oob false (some p) = List.replicate 256 0 := by
  refine ⟨rfl, rfl, ?_⟩
  unfold AdbKeyPair.signPayload
  simp [hp]

/-- Witness for C10 at concrete inputs. -/
theorem C10_sign_payload_degenerate_witness :
    ([1] : List Nat) ≠ [] ∧
    (AdbKeyPair.signPayload id (fun _ => 0) true none = [0] ∧
     AdbKeyPair.signPayload id (fun _ => 0) true (some []) = [0] ∧
     AdbKeyPair.signPayload id (fun _ => 0) false (some [1]) = List.replicate 256 0) :=
  ⟨by decide, C10_sign_payload_degenerate id (fun _ => 0) true [1] (by decide)⟩
